import Mathlib

/-!
Verification of the batch request translation and validation layer of the
`mcp-server-google-forms` repository.

The definitions below are a shallow embedding of the TypeScript source:

* `src/src/utils/request-builders.ts` (request builders; the snapshot of this
  file reachable through `src/src/utils/env.ts` is the evolved version with
  `FormOption` branching, grading pass-through and the settings builder —
  that version is embedded here),
* `src/src/tools/batch-update-form.ts` (the batch translator:
  `sortBatchOperations` and the per-operation validation loop of
  `BatchUpdateFormTool.execute`).

Numbers arriving through the JSON schema (`z.number()`) are modelled as `Int`
(they may be negative); optional fields are `Option`; code that returns
`Schema$Request | Error` is modelled as `Except String Request`.
-/

namespace GFormsBatch

/-- Operation kinds accepted by the batch tool (`OperationTypeSchema`). -/
inductive OperationType where
  | create_item
  | update_item
  | delete_item
  | move_item
  | update_form_info
deriving DecidableEq, Repr

/-- Item kinds (`ItemTypeSchema`). -/
inductive ItemType where
  | text
  | question
  | pageBreak
  | questionGroup
deriving DecidableEq, Repr

/-- Question kinds (`QuestionTypeSchema`). -/
inductive QuestionType where
  | TEXT
  | PARAGRAPH_TEXT
  | RADIO
  | CHECKBOX
  | DROP_DOWN
deriving DecidableEq, Repr

/-- Branching actions (`GoToActionSchema`). -/
inductive GoToAction where
  | NEXT_SECTION
  | RESTART_FORM
  | SUBMIT_FORM
deriving DecidableEq, Repr

/-- Selection type for grid question groups (`gridType` / `grid_type`). -/
inductive GridType where
  | CHECKBOX
  | RADIO
deriving DecidableEq, Repr

/-- An option of a choice question as supplied by the caller
(`FormOptionSchema`): a value plus optional branching directives. -/
structure FormOption where
  value : String
  goToAction : Option GoToAction := none
  goToSectionId : Option String := none
deriving DecidableEq, Repr

/-- A row of a question group (`QuestionGroupRowSchema`). -/
structure QuestionGroupRow where
  title : String
  required : Option Bool := none
deriving DecidableEq, Repr

/-- Question-group specific creation parameters (`QuestionGroupParamsSchema`). -/
structure QuestionGroupParams where
  rows : Option (List QuestionGroupRow) := none
  is_grid : Option Bool := none
  columns : Option (List FormOption) := none
  grid_type : Option GridType := none
  shuffle_questions : Option Bool := none
deriving DecidableEq, Repr

/-- Feedback text attached to grading (`FeedbackSchema`, text only). -/
structure Feedback where
  text : String
deriving DecidableEq, Repr

/-- Grading data passed through by the create builder (`GradingSchema`). -/
structure Grading where
  pointValue : Int
  correctAnswers : Option (List String) := none
  whenRight : Option Feedback := none
  whenWrong : Option Feedback := none
  generalFeedback : Option Feedback := none
deriving DecidableEq, Repr

/-- Parameters of the create-item builder (`CreateItemRequestParams`). -/
structure CreateItemRequestParams where
  title : String
  description : Option String := none
  index : Option Int := none
  item_type : ItemType
  question_type : Option QuestionType := none
  options : Option (List FormOption) := none
  required : Option Bool := none
  include_other : Option Bool := none
  grading : Option Grading := none
  question_group_params : Option QuestionGroupParams := none
deriving DecidableEq, Repr

/-- A wire-level option (`forms_v1.Schema$Option`): all fields optional. -/
structure WireOption where
  value : Option String := none
  goToAction : Option GoToAction := none
  goToSectionId : Option String := none
  isOther : Option Bool := none
deriving DecidableEq, Repr

/-- A wire-level choice question (`Schema$ChoiceQuestion`). -/
structure ChoiceQuestion where
  type : QuestionType
  options : List WireOption
deriving DecidableEq, Repr

/-- A wire-level question (`Schema$Question`). -/
structure Question where
  required : Bool
  grading : Option Grading := none
  textQuestion : Option Bool := none
  choiceQuestion : Option ChoiceQuestion := none
deriving DecidableEq, Repr

/-- A row question inside a wire question group. -/
structure RowQuestion where
  required : Bool
  title : String
deriving DecidableEq, Repr

/-- The `columns` object of a wire grid. -/
structure GridColumns where
  type : GridType
  options : List WireOption
deriving DecidableEq, Repr

/-- A wire grid configuration (`Schema$Grid`). -/
structure Grid where
  shuffleQuestions : Bool
  columns : GridColumns
deriving DecidableEq, Repr

/-- A wire question group item (`Schema$QuestionGroupItem`). -/
structure QuestionGroupItem where
  questions : List RowQuestion
  grid : Option Grid := none
deriving DecidableEq, Repr

/-- A wire form item (`forms_v1.Schema$Item`); the empty `textItem` /
`pageBreakItem` marker objects are modelled as presence flags. -/
structure Item where
  title : String
  description : Option String := none
  textItem : Bool := false
  pageBreakItem : Bool := false
  questionItem : Option Question := none
  questionGroupItem : Option QuestionGroupItem := none
deriving DecidableEq, Repr

/-- A wire request (`forms_v1.Schema$Request`), one variant per request kind
produced by the builders. -/
inductive Request where
  | createItem (item : Item) (locationIndex : Int)
  | updateItem (item : Item) (locationIndex : Int) (updateMask : String)
  | deleteItem (locationIndex : Int)
  | moveItem (originalLocationIndex : Int) (newLocationIndex : Int)
  | updateFormInfo (title : Option String) (description : Option String) (updateMask : String)
  | updateSettings (emailCollectionType : Option String) (isQuiz : Option Bool) (updateMask : String)
deriving DecidableEq, Repr

/-- TypeScript truthiness of an optional string (`if (s) ...`): present and
non-empty. -/
def truthyString : Option String → Option String
  | some s => if s = "" then none else some s
  | none => none

/-- Encoding of one caller option into a wire option, from the loop body in
`buildCreateItemRequest`: `goToAction` is copied when (truthily) present,
otherwise `goToSectionId` is copied when truthily present. -/
def encodeFormOption (opt : FormOption) : WireOption :=
  match opt.goToAction with
  | some a => { value := some opt.value, goToAction := some a }
  | none =>
    match opt.goToSectionId with
    | some s =>
      if s = "" then { value := some opt.value }
      else { value := some opt.value, goToSectionId := some s }
    | none => { value := some opt.value }

/-- The create-item request builder (`buildCreateItemRequest`). -/
def buildCreateItemRequest (params : CreateItemRequestParams) : Except String Request :=
  if params.title = "" then
    .error "Title is required when creating an item"
  else
    let base : Item := { title := params.title, description := truthyString params.description }
    let itemE : Except String Item :=
      match params.item_type with
      | .text => .ok { base with textItem := true }
      | .pageBreak => .ok { base with pageBreakItem := true }
      | .question =>
        match params.question_type with
        | none => .error "questionType is required when creating a question item"
        | some qt =>
          let q0 : Question :=
            { required := params.required.getD false, grading := params.grading }
          if qt = .TEXT ∨ qt = .PARAGRAPH_TEXT then
            .ok { base with
                  questionItem := some
                    { q0 with textQuestion := some (decide (qt = .PARAGRAPH_TEXT)) } }
          else
            match params.options with
            | none => .error "Multiple-choice questions require options"
            | some opts =>
              if opts.isEmpty then
                .error "Multiple-choice questions require options"
              else
                let optionsArray := opts.map encodeFormOption
                let optionsArray :=
                  if params.include_other = some true ∧ (qt = QuestionType.RADIO ∨ qt = .CHECKBOX) then
                    optionsArray ++ [{ isOther := some true }]
                  else
                    optionsArray
                .ok { base with
                      questionItem := some
                        { q0 with choiceQuestion := some { type := qt, options := optionsArray } } }
      | .questionGroup =>
        match params.question_group_params with
        | none => .error "Question group requires at least one row (question)"
        | some qg =>
          match qg.rows with
          | none => .error "Question group requires at least one row (question)"
          | some rows =>
            if rows.isEmpty then
              .error "Question group requires at least one row (question)"
            else
              let questions := rows.map fun row =>
                ({ required := row.required.getD false, title := row.title } : RowQuestion)
              if qg.is_grid = some true then
                match qg.columns with
                | none => .error "Grid-style question group requires columns (options)"
                | some cols =>
                  if cols.isEmpty then
                    .error "Grid-style question group requires columns (options)"
                  else
                    match qg.grid_type with
                    | none =>
                      .error "Grid-style question group requires a selection type (CHECKBOX or RADIO)"
                    | some gt =>
                      .ok { base with
                            questionGroupItem := some
                              { questions := questions,
                                grid := some
                                  { shuffleQuestions := qg.shuffle_questions.getD false,
                                    columns :=
                                      { type := gt,
                                        options := cols.map fun col =>
                                          ({ value := some col.value } : WireOption) } } } }
              else
                .ok { base with questionGroupItem := some { questions := questions } }
    match itemE with
    | .error e => .error e
    | .ok item => .ok (.createItem item (params.index.getD 0))

/-- Parameters of the update-item builder (`UpdateItemRequestParams`). -/
structure UpdateItemRequestParams where
  item : Option Item := none
  index : Int
  update_mask : String
deriving DecidableEq, Repr

/-- The update-item request builder (`buildUpdateItemRequest`). -/
def buildUpdateItemRequest (params : UpdateItemRequestParams) : Except String Request :=
  match params.item with
  | none => .error "item is required for updating an item"
  | some item =>
    if params.update_mask = "" then
      .error "updateMask is required for updating an item"
    else
      .ok (.updateItem item params.index params.update_mask)

/-- Parameters of the delete-item builder (`DeleteItemRequestParams`). -/
structure DeleteItemRequestParams where
  index : Int
deriving DecidableEq, Repr

/-- Parameters of the move-item builder (`MoveItemRequestParams`). -/
structure MoveItemRequestParams where
  index : Int
  new_index : Int
deriving DecidableEq, Repr

/-- The delete-item request builder (`buildDeleteItemRequest`): total, no
validation, returns a wire request for any index. -/
def buildDeleteItemRequest (params : DeleteItemRequestParams) : Request :=
  .deleteItem params.index

/-- The move-item request builder (`buildMoveItemRequest`): total, no
validation, returns a wire request for any pair of indices. -/
def buildMoveItemRequest (params : MoveItemRequestParams) : Request :=
  .moveItem params.index params.new_index

/-- Parameters of the form-info builder (`UpdateFormInfoRequestParams`). -/
structure UpdateFormInfoRequestParams where
  title : Option String := none
  description : Option String := none
deriving DecidableEq, Repr

/-- The update-form-info request builder (`buildUpdateFormInfoRequest`): the
mask accumulates the names of the fields actually supplied, in declaration
order, joined with commas. -/
def buildUpdateFormInfoRequest (params : UpdateFormInfoRequestParams) : Except String Request :=
  let updateMaskParts : List String :=
    (if params.title.isSome then ["title"] else []) ++
      (if params.description.isSome then ["description"] else [])
  if updateMaskParts.isEmpty then
    .error "No form information specified to update"
  else
    .ok (.updateFormInfo params.title params.description (String.intercalate "," updateMaskParts))

/-- Parameters of the settings builder (`UpdateFormSettingsRequestParams`);
the email collection type is kept as its wire string. -/
structure UpdateFormSettingsRequestParams where
  email_collection_type : Option String := none
  is_quiz : Option Bool := none
deriving DecidableEq, Repr

/-- The update-form-settings request builder (`buildUpdateFormSettingsRequest`). -/
def buildUpdateFormSettingsRequest (params : UpdateFormSettingsRequestParams) :
    Except String Request :=
  let updateMaskParts : List String :=
    (if params.email_collection_type.isSome then ["emailCollectionType"] else []) ++
      (if params.is_quiz.isSome then ["quizSettings.isQuiz"] else [])
  if updateMaskParts.isEmpty then
    .error "No form settings specified to update"
  else
    .ok (.updateSettings params.email_collection_type params.is_quiz
      (String.intercalate "," updateMaskParts))

/-- One batch operation as accepted by the batch tool's parameter schema:
an operation tag plus one optional payload per kind. -/
structure BatchOp where
  operation : OperationType
  createItemRequest : Option CreateItemRequestParams := none
  updateItemRequest : Option UpdateItemRequestParams := none
  deleteItemRequest : Option DeleteItemRequestParams := none
  moveItemRequest : Option MoveItemRequestParams := none
  updateFormInfoRequest : Option UpdateFormInfoRequestParams := none
deriving DecidableEq, Repr

/-- The snapshot of the form fetched at the start of a batch
(`service.getForm`): only the optional item list matters to the
translator, and only through its length. -/
structure Form where
  items : Option (List Unit)
deriving DecidableEq, Repr

/-- Number of items in the snapshot (`form.items.length`, zero when the
item list is absent). -/
def numItems (form : Form) : Nat :=
  (form.items.getD []).length

/-- The reordering applied before the translation loop
(`sortBatchOperations` in `batch-update-form.ts`): creations are
front-loaded and reversed among themselves, other operations keep their
relative order. -/
def sortBatchOperations (operations : List BatchOp) : List BatchOp :=
  let createOps := operations.filter fun op => decide (op.operation = .create_item)
  let otherOps := operations.filter fun op => !decide (op.operation = .create_item)
  let reversedCreateOps := createOps.reverse
  reversedCreateOps ++ otherOps

/-- The body of one iteration of the translation loop in
`BatchUpdateFormTool.execute`, without the positional error prefix (which
the loop adds uniformly): payload-presence checks, index bounds checks
against the snapshot, and dispatch to the matching builder. -/
def buildOpRequestCore (form : Form) (op : BatchOp) : Except String Request :=
  match op.operation with
  | .create_item =>
    match op.createItemRequest with
    | none => .error "createItemRequest is required when creating an item"
    | some params => buildCreateItemRequest params
  | .update_item =>
    match op.updateItemRequest with
    | none => .error "updateItemRequest is required for update_item operations"
    | some params =>
      if params.index < 0 ∨ form.items.isNone ∨ (numItems form : Int) ≤ params.index then
        .error ("Index " ++ toString params.index ++ " is out of range")
      else if params.item.isNone then
        .error "'item' is required in updateItemRequest"
      else if params.update_mask = "" then
        .error "'update_mask' is required in updateItemRequest"
      else
        buildUpdateItemRequest params
  | .delete_item =>
    match op.deleteItemRequest with
    | none => .error "deleteItemRequest is required when deleting an item"
    | some params =>
      if params.index < 0 ∨ form.items.isNone ∨ (numItems form : Int) ≤ params.index then
        .error ("Index " ++ toString params.index ++ " is out of range")
      else
        .ok (buildDeleteItemRequest params)
  | .move_item =>
    match op.moveItemRequest with
    | none => .error "moveItemRequest is required when moving an item"
    | some params =>
      if params.index < 0 ∨ form.items.isNone ∨ (numItems form : Int) ≤ params.index then
        .error ("Index " ++ toString params.index ++ " is out of range")
      else if params.new_index < 0 ∨ (numItems form : Int) < params.new_index then
        .error ("New index " ++ toString params.new_index ++ " is out of range")
      else
        .ok (buildMoveItemRequest params)
  | .update_form_info =>
    match op.updateFormInfoRequest with
    | none => .error "updateFormInfoRequest is required when updating form info"
    | some params => buildUpdateFormInfoRequest params

/-- A translation failure: the 1-based position the loop used in its error
message, plus the message text. -/
structure OpError where
  position : Nat
  message : String
deriving DecidableEq, Repr

/-- The message shape produced by the loop's wrapping of a failure at
position `position` (the inner throw carries the same number). -/
def opErrorMessage (position : Nat) (msg : String) : String :=
  "Error occurred in operation #" ++ toString position ++ ": Operation #" ++
    toString position ++ ": " ++ msg

/-- The translation loop of `BatchUpdateFormTool.execute`: processes the
already-reordered operations in order, fails fast on the first invalid one
tagging it with its (1-based) position in the processed sequence, and
otherwise accumulates the wire requests. -/
def translateGo (form : Form) : Nat → List BatchOp → Except OpError (List Request)
  | _, [] => .ok []
  | opIndex, op :: rest =>
    match buildOpRequestCore form op with
    | .error msg => .error ⟨opIndex + 1, opErrorMessage (opIndex + 1) msg⟩
    | .ok req =>
      match translateGo form (opIndex + 1) rest with
      | .error e => .error e
      | .ok reqs => .ok (req :: reqs)

/-- The whole translation phase of one batch: reorder, then run the loop
from position zero. -/
def translateOps (form : Form) (ops : List BatchOp) : Except OpError (List Request) :=
  translateGo form 0 (sortBatchOperations ops)

/-- Whether `service.batchUpdateForm` is reached for a batch: only when
translation succeeded and produced a non-empty request list (an empty list
is rejected with "No operations to execute" before submission). -/
def batchUpdateInvoked (form : Form) (ops : List BatchOp) : Bool :=
  match translateOps form ops with
  | .ok reqs => !reqs.isEmpty
  | .error _ => false

/-- Projection: the position named by a translation error, if any. -/
def exceptErrorPosition : Except OpError (List Request) → Option Nat
  | .error e => some e.position
  | .ok _ => none

/-- Projection: the request list of a successful translation, if any. -/
def exceptOkRequests : Except OpError (List Request) → Option (List Request)
  | .ok reqs => some reqs
  | .error _ => none

/-- Projection: the request produced by a successful builder call, if any. -/
def builderOk : Except String Request → Option Request
  | .ok r => some r
  | .error _ => none

section Lemmas

variable {α : Type _}

/-- Filtering with a predicate and its negation partitions the length. -/
theorem length_filter_partition (p : α → Bool) (l : List α) :
    (l.filter p).length + (l.filter fun a => !p a).length = l.length := by
  induction l with
  | nil => rfl
  | cons a l ih =>
    cases h : p a <;> simp [List.filter_cons, h] <;> omega

/-- Reordering preserves the number of operations. -/
theorem sortBatchOperations_length (ops : List BatchOp) :
    (sortBatchOperations ops).length = ops.length := by
  simpa [sortBatchOperations] using
    length_filter_partition (fun op => decide (op.operation = .create_item)) ops

/-- A non-creation operation stays in the processing order. -/
theorem mem_sortBatchOperations_of_not_create {op : BatchOp} {ops : List BatchOp}
    (hmem : op ∈ ops) (hne : op.operation ≠ .create_item) :
    op ∈ sortBatchOperations ops := by
  simp only [sortBatchOperations, List.mem_append, List.mem_reverse, List.mem_filter]
  exact Or.inr ⟨hmem, by simp [hne]⟩

/-- If some operation in the list fails its per-operation validation, the
loop fails, and the position it reports lies within the processed range. -/
theorem translateGo_error_of_mem (form : Form) :
    ∀ (l : List BatchOp) (k : Nat) (op : BatchOp), op ∈ l →
      (∃ msg, buildOpRequestCore form op = .error msg) →
      ∃ e, translateGo form k l = .error e ∧ k + 1 ≤ e.position ∧ e.position ≤ k + l.length := by
  intro l
  induction l with
  | nil => intro k op h; cases h
  | cons a rest ih =>
    intro k op hmem hbad
    cases hcore : buildOpRequestCore form a with
    | error msg =>
      refine ⟨⟨k + 1, opErrorMessage (k + 1) msg⟩, ?_, ?_, ?_⟩
      · simp [translateGo, hcore]
      · exact Nat.le_refl _
      · simp only [List.length_cons]; omega
    | ok req =>
      have hop : op ∈ rest := by
        rcases List.mem_cons.mp hmem with h | h
        · subst h
          rcases hbad with ⟨msg, hmsg⟩
          simp [hmsg] at hcore
        · exact h
      obtain ⟨e, he, h1, h2⟩ := ih (k + 1) op hop hbad
      refine ⟨e, ?_, by omega, ?_⟩
      · simp [translateGo, hcore, he]
      · simp only [List.length_cons]; omega

/-- If the loop succeeds, every operation in the list passed its
per-operation validation. -/
theorem translateGo_ok_mem (form : Form) :
    ∀ (l : List BatchOp) (k : Nat) (reqs : List Request),
      translateGo form k l = .ok reqs →
      ∀ op ∈ l, ∃ req, buildOpRequestCore form op = .ok req := by
  intro l
  induction l with
  | nil => intro k reqs _ op hmem; cases hmem
  | cons a rest ih =>
    intro k reqs h op hmem
    cases hcore : buildOpRequestCore form a with
    | error msg => simp [translateGo, hcore] at h
    | ok req =>
      cases hrest : translateGo form (k + 1) rest with
      | error e => simp [translateGo, hcore, hrest] at h
      | ok reqs2 =>
        rcases List.mem_cons.mp hmem with heq | hm
        · exact heq ▸ ⟨req, hcore⟩
        · exact ih (k + 1) reqs2 hrest op hm

/-- An update, delete or move operation whose (present) payload targets an
index outside the snapshot's item range. -/
def targetOutOfRange (form : Form) (op : BatchOp) : Prop :=
  (op.operation = .update_item ∧
    ∃ p, op.updateItemRequest = some p ∧ (p.index < 0 ∨ (numItems form : Int) ≤ p.index)) ∨
  (op.operation = .delete_item ∧
    ∃ p, op.deleteItemRequest = some p ∧ (p.index < 0 ∨ (numItems form : Int) ≤ p.index)) ∨
  (op.operation = .move_item ∧
    ∃ p, op.moveItemRequest = some p ∧ (p.index < 0 ∨ (numItems form : Int) ≤ p.index))

/-- An out-of-range target operation fails its per-operation validation. -/
theorem badCore_of_targetOutOfRange {form : Form} {op : BatchOp}
    (h : targetOutOfRange form op) :
    ∃ msg, buildOpRequestCore form op = .error msg := by
  rcases h with ⟨hop, p, hp, hidx⟩ | ⟨hop, p, hp, hidx⟩ | ⟨hop, p, hp, hidx⟩ <;>
    · refine ⟨"Index " ++ toString p.index ++ " is out of range", ?_⟩
      simp only [buildOpRequestCore, hop, hp]
      rw [if_pos (by tauto)]

/-- An out-of-range target operation is not a creation. -/
theorem not_create_of_targetOutOfRange {form : Form} {op : BatchOp}
    (h : targetOutOfRange form op) : op.operation ≠ .create_item := by
  rcases h with ⟨hop, _⟩ | ⟨hop, _⟩ | ⟨hop, _⟩ <;> simp [hop]

/-- A move operation that passed its per-operation validation has both
indices in range. -/
theorem core_ok_move_bounds {form : Form} {op : BatchOp} {req : Request}
    (hok : buildOpRequestCore form op = .ok req) (hop : op.operation = .move_item)
    {p : MoveItemRequestParams} (hp : op.moveItemRequest = some p) :
    0 ≤ p.index ∧ p.index < (numItems form : Int) ∧
      0 ≤ p.new_index ∧ p.new_index ≤ (numItems form : Int) := by
  simp only [buildOpRequestCore, hop, hp] at hok
  by_cases h1 : p.index < 0 ∨ form.items.isNone = true ∨ (numItems form : Int) ≤ p.index
  · rw [if_pos h1] at hok; cases hok
  · rw [if_neg h1] at hok
    by_cases h2 : p.new_index < 0 ∨ (numItems form : Int) < p.new_index
    · rw [if_pos h2] at hok; cases hok
    · push_neg at h1 h2
      exact ⟨h1.1, h1.2.2, h2.1, h2.2⟩

/-- A delete operation that passed its per-operation validation has its
index in range. -/
theorem core_ok_delete_bounds {form : Form} {op : BatchOp} {req : Request}
    (hok : buildOpRequestCore form op = .ok req) (hop : op.operation = .delete_item)
    {p : DeleteItemRequestParams} (hp : op.deleteItemRequest = some p) :
    0 ≤ p.index ∧ p.index < (numItems form : Int) := by
  simp only [buildOpRequestCore, hop, hp] at hok
  by_cases h1 : p.index < 0 ∨ form.items.isNone = true ∨ (numItems form : Int) ≤ p.index
  · rw [if_pos h1] at hok; cases hok
  · push_neg at h1
    exact ⟨h1.1, h1.2.2⟩

end Lemmas

def c1CreateA : BatchOp :=
  { operation := .create_item, createItemRequest := some { title := "A", item_type := .text } }

def c1CreateB : BatchOp :=
  { operation := .create_item, createItemRequest := some { title := "B", item_type := .text } }

def c1CreateC : BatchOp :=
  { operation := .create_item, createItemRequest := some { title := "C", item_type := .text } }

def c1Delete0 : BatchOp := { operation := .delete_item, deleteItemRequest := some ⟨0⟩ }

/-- Claim C1: for every operation list, the processing order fed to the
request builders is every `create_item` operation moved to the front with
their relative order reversed among themselves, followed by all other
operations in their original relative order; in particular, on the spec's
example `[create A, delete@0, create B, create C]` the processing order is
`[create C, create B, create A, delete@0]`. -/
theorem claim1_processing_order :
    (∀ (form : Form) (operations : List BatchOp),
        translateOps form operations =
          translateGo form 0
            ((operations.filter fun op => decide (op.operation = .create_item)).reverse ++
              operations.filter fun op => !decide (op.operation = .create_item))) ∧
      sortBatchOperations [c1CreateA, c1Delete0, c1CreateB, c1CreateC] =
        [c1CreateC, c1CreateB, c1CreateA, c1Delete0] :=
  ⟨fun _ _ => rfl, by decide⟩

/-- Claim C2: a batch containing an update, delete or move operation whose
target index is negative or not below the snapshot's item count fails
translation with an error naming a 1-based operation position, and the
batch-apply collaborator (`service.batchUpdateForm`) is never invoked for
that batch. -/
theorem claim2_out_of_range_rejected (form : Form) (ops : List BatchOp)
    (h : ∃ op ∈ ops, targetOutOfRange form op) :
    (∃ e, translateOps form ops = .error e ∧ 1 ≤ e.position ∧ e.position ≤ ops.length) ∧
      batchUpdateInvoked form ops = false := by
  obtain ⟨op, hmem, hbad⟩ := h
  have hmem' := mem_sortBatchOperations_of_not_create hmem (not_create_of_targetOutOfRange hbad)
  obtain ⟨e, he, h1, h2⟩ :=
    translateGo_error_of_mem form (sortBatchOperations ops) 0 op hmem'
      (badCore_of_targetOutOfRange hbad)
  have he' : translateOps form ops = .error e := he
  have hlen := sortBatchOperations_length ops
  refine ⟨⟨e, he', h1, by omega⟩, ?_⟩
  simp [batchUpdateInvoked, he']

def c2Form : Form := ⟨some [(), ()]⟩

def c2BadDelete : BatchOp := { operation := .delete_item, deleteItemRequest := some ⟨5⟩ }

/-- Witness for C2: deleting index 5 against a two-item snapshot. -/
theorem claim2_witness :
    (∃ e, translateOps c2Form [c2BadDelete] = .error e ∧ 1 ≤ e.position ∧
        e.position ≤ [c2BadDelete].length) ∧
      batchUpdateInvoked c2Form [c2BadDelete] = false :=
  claim2_out_of_range_rejected c2Form [c2BadDelete]
    ⟨c2BadDelete, List.mem_singleton.mpr rfl,
      Or.inr (Or.inl ⟨rfl, ⟨5⟩, rfl, Or.inr (by decide)⟩)⟩

def c3Form : Form := ⟨some []⟩

def c3CreateOp : BatchOp :=
  { operation := .create_item,
    createItemRequest := some { title := "A", item_type := .text, index := some 5 } }

/-- Counterexample to C3 as stated: a creation with insertion index 5
against a zero-item snapshot is accepted by the translator (it builds a
wire request carrying index 5), yet `0 ≤ 5 ≤ snapshot.items.length`
fails. -/
theorem claim3_counterexample :
    exceptOkRequests (translateOps c3Form [c3CreateOp]) =
        some [Request.createItem { title := "A", textItem := true } 5] ∧
      numItems c3Form = 0 ∧ ¬((5 : Int) ≤ (numItems c3Form : Int)) := by decide

/-- Claim C3 (amended): in every batch the translator accepts, every
`move_item` destination index satisfies `0 ≤ new_index ≤
snapshot.items.length`; `create_item` insertion indices are forwarded to
the wire request without any bounds check. -/
theorem claim3_amended_move_destination_in_range (form : Form) (ops : List BatchOp)
    {reqs : List Request} (hok : translateOps form ops = .ok reqs)
    (op : BatchOp) (hmem : op ∈ ops) (hop : op.operation = .move_item)
    (p : MoveItemRequestParams) (hp : op.moveItemRequest = some p) :
    0 ≤ p.new_index ∧ p.new_index ≤ (numItems form : Int) := by
  have hne : op.operation ≠ .create_item := by simp [hop]
  have hmem' := mem_sortBatchOperations_of_not_create hmem hne
  obtain ⟨req, hreq⟩ := translateGo_ok_mem form (sortBatchOperations ops) 0 reqs hok op hmem'
  have h := core_ok_move_bounds hreq hop hp
  exact ⟨h.2.2.1, h.2.2.2⟩

def c3wForm : Form := ⟨some [(), ()]⟩

def c3wMove : BatchOp := { operation := .move_item, moveItemRequest := some ⟨0, 2⟩ }

/-- Witness for the amended C3: the accepted batch `[move 0 → 2]` against a
two-item snapshot has its destination within bounds. -/
theorem claim3_amended_witness :
    0 ≤ (⟨0, 2⟩ : MoveItemRequestParams).new_index ∧
      (⟨0, 2⟩ : MoveItemRequestParams).new_index ≤ (numItems c3wForm : Int) :=
  @claim3_amended_move_destination_in_range c3wForm [c3wMove] [Request.moveItem 0 2]
    rfl c3wMove (List.mem_singleton.mpr rfl) rfl ⟨0, 2⟩ rfl

def c4Form : Form := ⟨some [()]⟩

def c4Delete99 : BatchOp := { operation := .delete_item, deleteItemRequest := some ⟨99⟩ }

def c4CreateOp : BatchOp :=
  { operation := .create_item, createItemRequest := some { title := "A", item_type := .text } }

/-- Claim C4 evaluated at the failing input `[delete@99, create A]` against
a one-item snapshot: the failing delete is the caller's operation number 1
(the head of the original list), but the code reports position 2 — the
delete's position in the reordered processing sequence. -/
theorem claim4_code_reports_reordered_position :
    [c4Delete99, c4CreateOp].head? = some c4Delete99 ∧
      c4Delete99.operation = .delete_item ∧
      exceptErrorPosition (translateOps c4Form [c4Delete99, c4CreateOp]) = some 2 ∧
      (2 : Nat) ≠ 1 := by decide

def c5Form : Form := ⟨some [(), ()]⟩

def c5CreateNoIndex : BatchOp :=
  { operation := .create_item, createItemRequest := some { title := "T", item_type := .text } }

/-- Claim C5 evaluated at the failing input: a create operation whose
payload omits the insertion index, against a two-item snapshot, yields a
wire request whose insertion position is 0, not the snapshot length 2. -/
theorem claim5_omitted_index_defaults_to_zero :
    exceptOkRequests (translateOps c5Form [c5CreateNoIndex]) =
        some [Request.createItem { title := "T", textItem := true } 0] ∧
      numItems c5Form = 2 ∧ (0 : Int) ≠ 2 := by decide

def c6Params : CreateItemRequestParams :=
  { title := "Q", item_type := .question, question_type := some QuestionType.RADIO,
    options := some [{ value := "A", goToAction := some .NEXT_SECTION,
                       goToSectionId := some "sec1" }] }

def c6Item : Item :=
  { title := "Q",
    questionItem := some
      { required := false,
        choiceQuestion := some
          { type := QuestionType.RADIO,
            options := [{ value := some "A", goToAction := some .NEXT_SECTION }] } } }

/-- Counterexample to C6 as stated: an option carrying both a branching
action and a section target is not rejected — the builder succeeds,
keeping the action and dropping the section identifier. -/
theorem claim6_counterexample :
    builderOk (buildCreateItemRequest c6Params) = some (.createItem c6Item 0) := by decide

/-- Claim C6 (amended): when both the branching action and the section
target are set on an option, the create-item builder silently keeps
`goToAction` and drops `goToSectionId`, returning success for an otherwise
valid choice question rather than a validation error. -/
theorem claim6_amended_action_preferred (title v sid : String) (a : GoToAction)
    (htitle : title ≠ "") :
    buildCreateItemRequest
        { title := title, item_type := .question, question_type := some QuestionType.RADIO,
          options := some [{ value := v, goToAction := some a, goToSectionId := some sid }] } =
      .ok (.createItem
        { title := title,
          questionItem := some
            { required := false,
              choiceQuestion := some
                { type := QuestionType.RADIO,
                  options := [{ value := some v, goToAction := some a }] } } } 0) := by
  simp [buildCreateItemRequest, htitle, encodeFormOption, truthyString]

/-- Witness for the amended C6 at concrete values. -/
theorem claim6_amended_witness :
    buildCreateItemRequest c6Params = .ok (.createItem c6Item 0) :=
  claim6_amended_action_preferred "Q" "A" "sec1" .NEXT_SECTION (by decide)

/-- Claim C7: on a choice-type question - RADIO, CHECKBOX or DROP_DOWN - the
create builder rejects an empty or absent options list; with the single
option value "A" it succeeds, the wire item carrying exactly one option
with value "A" and no other-marker; with `include_other` true on a RADIO
or CHECKBOX question a synthetic other-option marker is appended as the
last entry of the wire option list. -/
theorem claim7_choice_builder :
    (∀ (title : String) (qt : QuestionType) (o : Option (List FormOption)),
        title ≠ "" → (qt = QuestionType.RADIO ∨ qt = .CHECKBOX ∨ qt = .DROP_DOWN) →
        (o = none ∨ o = some []) →
        ∃ msg,
          buildCreateItemRequest
              { title := title, item_type := .question, question_type := some qt,
                options := o } = .error msg) ∧
    (∀ (title : String) (qt : QuestionType), title ≠ "" →
        (qt = QuestionType.RADIO ∨ qt = .CHECKBOX ∨ qt = .DROP_DOWN) →
        buildCreateItemRequest
            { title := title, item_type := .question, question_type := some qt,
              options := some [{ value := "A" }] } =
          .ok (.createItem
            { title := title,
              questionItem := some
                { required := false,
                  choiceQuestion := some
                    { type := qt, options := [{ value := some "A" }] } } } 0)) ∧
    (∀ (title : String) (opts : List FormOption) (qt : QuestionType), title ≠ "" →
        opts ≠ [] → (qt = QuestionType.RADIO ∨ qt = .CHECKBOX) →
        buildCreateItemRequest
            { title := title, item_type := .question, question_type := some qt,
              options := some opts, include_other := some true } =
          .ok (.createItem
            { title := title,
              questionItem := some
                { required := false,
                  choiceQuestion := some
                    { type := qt,
                      options := opts.map encodeFormOption ++
                        [{ isOther := some true }] } } } 0)) := by
  refine ⟨?_, ?_, ?_⟩
  · intro title qt o htitle hqt ho
    rcases hqt with rfl | rfl | rfl <;> rcases ho with rfl | rfl <;>
      exact ⟨"Multiple-choice questions require options",
        by simp [buildCreateItemRequest, htitle]⟩
  · intro title qt htitle hqt
    rcases hqt with rfl | rfl | rfl <;>
      simp [buildCreateItemRequest, htitle, encodeFormOption, truthyString]
  · intro title opts qt htitle hopts hqt
    rcases hqt with rfl | rfl <;>
      cases opts with
      | nil => exact absurd rfl hopts
      | cons a as => simp [buildCreateItemRequest, htitle, truthyString]

/-- Witness for C7: the three behaviours at concrete payloads. -/
theorem claim7_witness :
    (∃ msg,
        buildCreateItemRequest
            { title := "Q", item_type := .question, question_type := some QuestionType.RADIO,
              options := some [] } = .error msg) ∧
      buildCreateItemRequest
          { title := "Q", item_type := .question, question_type := some QuestionType.RADIO,
            options := some [{ value := "A" }] } =
        .ok (.createItem
          { title := "Q",
            questionItem := some
              { required := false,
                choiceQuestion := some
                  { type := QuestionType.RADIO, options := [{ value := some "A" }] } } } 0) ∧
      buildCreateItemRequest
          { title := "Q", item_type := .question, question_type := some .CHECKBOX,
            options := some [{ value := "A" }], include_other := some true } =
        .ok (.createItem
          { title := "Q",
            questionItem := some
              { required := false,
                choiceQuestion := some
                  { type := .CHECKBOX,
                    options := [({ value := "A" } : FormOption)].map encodeFormOption ++
                      [{ isOther := some true }] } } } 0) :=
  ⟨claim7_choice_builder.1 "Q" QuestionType.RADIO (some []) (by decide) (Or.inl rfl) (Or.inr rfl),
   claim7_choice_builder.2.1 "Q" QuestionType.RADIO (by decide) (Or.inl rfl),
   claim7_choice_builder.2.2 "Q" [{ value := "A" }] .CHECKBOX (by decide) (by decide)
     (Or.inr rfl)⟩

/-- Claim C8: a questionGroup payload is rejected whenever its rows are
empty or absent; with the grid flag set it is rejected unless a non-empty
columns list and a grid type are both present; with non-empty rows and
both grid fields present it succeeds, the wire grid carrying the given
type and one column option per supplied column. -/
theorem claim8_question_group_builder :
    (∀ (title : String) (qgp : Option QuestionGroupParams), title ≠ "" →
        (qgp = none ∨ ∃ qg, qgp = some qg ∧ (qg.rows = none ∨ qg.rows = some [])) →
        ∃ msg,
          buildCreateItemRequest
              { title := title, item_type := .questionGroup,
                question_group_params := qgp } = .error msg) ∧
    (∀ (title : String) (qg : QuestionGroupParams) (rows : List QuestionGroupRow),
        title ≠ "" → qg.rows = some rows → rows ≠ [] → qg.is_grid = some true →
        (qg.columns = none ∨ qg.columns = some [] ∨ qg.grid_type = none) →
        ∃ msg,
          buildCreateItemRequest
              { title := title, item_type := .questionGroup,
                question_group_params := some qg } = .error msg) ∧
    (∀ (title : String) (rows : List QuestionGroupRow) (cols : List FormOption)
        (gt : GridType) (sh : Option Bool), title ≠ "" → rows ≠ [] → cols ≠ [] →
        buildCreateItemRequest
            { title := title, item_type := .questionGroup,
              question_group_params := some
                { rows := some rows, is_grid := some true, columns := some cols,
                  grid_type := some gt, shuffle_questions := sh } } =
          .ok (.createItem
            { title := title,
              questionGroupItem := some
                { questions := rows.map fun row =>
                    ({ required := row.required.getD false, title := row.title } : RowQuestion),
                  grid := some
                    { shuffleQuestions := sh.getD false,
                      columns :=
                        { type := gt,
                          options := cols.map fun col =>
                            ({ value := some col.value } : WireOption) } } } } 0)) := by
  refine ⟨?_, ?_, ?_⟩
  · intro title qgp htitle h
    rcases h with rfl | ⟨qg, rfl, hrows | hrows⟩
    · exact ⟨"Question group requires at least one row (question)",
        by simp [buildCreateItemRequest, htitle]⟩
    · exact ⟨"Question group requires at least one row (question)",
        by simp [buildCreateItemRequest, htitle, hrows]⟩
    · exact ⟨"Question group requires at least one row (question)",
        by simp [buildCreateItemRequest, htitle, hrows]⟩
  · intro title qg rows htitle hrows hrne hgrid h
    cases rows with
    | nil => exact absurd rfl hrne
    | cons r rs =>
      rcases h with hc | hc | hgt
      · exact ⟨"Grid-style question group requires columns (options)",
          by simp [buildCreateItemRequest, htitle, hrows, hgrid, hc]⟩
      · exact ⟨"Grid-style question group requires columns (options)",
          by simp [buildCreateItemRequest, htitle, hrows, hgrid, hc]⟩
      · cases hcq : qg.columns with
        | none =>
          exact ⟨"Grid-style question group requires columns (options)",
            by simp [buildCreateItemRequest, htitle, hrows, hgrid, hcq]⟩
        | some cols =>
          cases cols with
          | nil =>
            exact ⟨"Grid-style question group requires columns (options)",
              by simp [buildCreateItemRequest, htitle, hrows, hgrid, hcq]⟩
          | cons c cs =>
            exact ⟨"Grid-style question group requires a selection type (CHECKBOX or RADIO)",
              by simp [buildCreateItemRequest, htitle, hrows, hgrid, hcq, hgt]⟩
  · intro title rows cols gt sh htitle hrne hcne
    cases rows with
    | nil => exact absurd rfl hrne
    | cons r rs =>
      cases cols with
      | nil => exact absurd rfl hcne
      | cons c cs => simp [buildCreateItemRequest, htitle, truthyString]

/-- Witness for C8: the spec's concrete grid-group payloads. -/
theorem claim8_witness :
    (∃ msg,
        buildCreateItemRequest
            { title := "G", item_type := .questionGroup,
              question_group_params := some { rows := some ([] : List QuestionGroupRow) } } =
          .error msg) ∧
      (∃ msg,
        buildCreateItemRequest
            { title := "G", item_type := .questionGroup,
              question_group_params := some
                { rows := some [{ title := "R1" }], is_grid := some true } } = .error msg) ∧
      buildCreateItemRequest
          { title := "G", item_type := .questionGroup,
            question_group_params := some
              { rows := some [{ title := "R1" }], is_grid := some true,
                columns := some [{ value := "C1" }], grid_type := some GridType.RADIO,
                shuffle_questions := none } } =
        .ok (.createItem
          { title := "G",
            questionGroupItem := some
              { questions := [({ title := "R1" } : QuestionGroupRow)].map fun row =>
                  ({ required := row.required.getD false, title := row.title } : RowQuestion),
                grid := some
                  { shuffleQuestions := (none : Option Bool).getD false,
                    columns :=
                      { type := GridType.RADIO,
                        options := [({ value := "C1" } : FormOption)].map fun col =>
                          ({ value := some col.value } : WireOption) } } } } 0) :=
  ⟨claim8_question_group_builder.1 "G" (some { rows := some [] }) (by decide)
      (Or.inr ⟨{ rows := some [] }, rfl, Or.inr rfl⟩),
   claim8_question_group_builder.2.1 "G" { rows := some [{ title := "R1" }], is_grid := some true }
      [{ title := "R1" }] (by decide) rfl (by decide) rfl (Or.inl rfl),
   claim8_question_group_builder.2.2 "G" [{ title := "R1" }] [{ value := "C1" }] GridType.RADIO none
      (by decide) (by decide) (by decide)⟩

/-- Claim C9: the form-info and form-settings builders fail with a
"nothing to update" error exactly when none of their optional fields is
populated, and when at least one is populated they succeed with an update
mask listing exactly the populated field names, comma-separated, in
field-declaration order. -/
theorem claim9_update_masks :
    (∀ (t d : Option String),
        (∃ msg, buildUpdateFormInfoRequest { title := t, description := d } = .error msg) ↔
          t = none ∧ d = none) ∧
    (∀ t : String,
        buildUpdateFormInfoRequest { title := some t } =
          .ok (.updateFormInfo (some t) none "title")) ∧
    (∀ d : String,
        buildUpdateFormInfoRequest { description := some d } =
          .ok (.updateFormInfo none (some d) "description")) ∧
    (∀ (t d : String),
        buildUpdateFormInfoRequest { title := some t, description := some d } =
          .ok (.updateFormInfo (some t) (some d) "title,description")) ∧
    (∀ (e : Option String) (q : Option Bool),
        (∃ msg,
            buildUpdateFormSettingsRequest { email_collection_type := e, is_quiz := q } =
              .error msg) ↔ e = none ∧ q = none) ∧
    (∀ e : String,
        buildUpdateFormSettingsRequest { email_collection_type := some e } =
          .ok (.updateSettings (some e) none "emailCollectionType")) ∧
    (∀ q : Bool,
        buildUpdateFormSettingsRequest { is_quiz := some q } =
          .ok (.updateSettings none (some q) "quizSettings.isQuiz")) ∧
    (∀ (e : String) (q : Bool),
        buildUpdateFormSettingsRequest { email_collection_type := some e, is_quiz := some q } =
          .ok (.updateSettings (some e) (some q) "emailCollectionType,quizSettings.isQuiz")) := by
  refine ⟨?_, ?_, ?_, ?_, ?_, ?_, ?_, ?_⟩
  · intro t d
    cases t <;> cases d <;> simp [buildUpdateFormInfoRequest]
  · intro t; simp [buildUpdateFormInfoRequest]; rfl
  · intro d; simp [buildUpdateFormInfoRequest]; rfl
  · intro t d; simp [buildUpdateFormInfoRequest]; rfl
  · intro e q
    cases e <;> cases q <;> simp [buildUpdateFormSettingsRequest]
  · intro e; simp [buildUpdateFormSettingsRequest]; rfl
  · intro q; simp [buildUpdateFormSettingsRequest]; rfl
  · intro e q; simp [buildUpdateFormSettingsRequest]; rfl

/-- Claim C10: the delete and move request builders are total — for every
integer index they return a wire request carrying exactly that index and
never a validation error — and index bounds checking for delete and move
operations is performed solely by the batch translator, which only accepts
batches whose delete and move source indices lie within the snapshot's
range. -/
theorem claim10_delete_move_builders_total :
    (∀ i : Int, buildDeleteItemRequest ⟨i⟩ = .deleteItem i) ∧
    (∀ i j : Int, buildMoveItemRequest ⟨i, j⟩ = .moveItem i j) ∧
    (∀ (form : Form) (ops : List BatchOp) (reqs : List Request),
        translateOps form ops = .ok reqs →
        ∀ op ∈ ops,
          (op.operation = .delete_item →
            ∀ p, op.deleteItemRequest = some p →
              0 ≤ p.index ∧ p.index < (numItems form : Int)) ∧
          (op.operation = .move_item →
            ∀ p, op.moveItemRequest = some p →
              0 ≤ p.index ∧ p.index < (numItems form : Int))) := by
  refine ⟨fun _ => rfl, fun _ _ => rfl, ?_⟩
  intro form ops reqs hok op hmem
  constructor
  · intro hop p hp
    have hne : op.operation ≠ .create_item := by simp [hop]
    obtain ⟨req, hreq⟩ :=
      translateGo_ok_mem form (sortBatchOperations ops) 0 reqs hok op
        (mem_sortBatchOperations_of_not_create hmem hne)
    exact core_ok_delete_bounds hreq hop hp
  · intro hop p hp
    have hne : op.operation ≠ .create_item := by simp [hop]
    obtain ⟨req, hreq⟩ :=
      translateGo_ok_mem form (sortBatchOperations ops) 0 reqs hok op
        (mem_sortBatchOperations_of_not_create hmem hne)
    have h := core_ok_move_bounds hreq hop hp
    exact ⟨h.1, h.2.1⟩

def c10Form : Form := ⟨some [(), (), ()]⟩

def c10Delete : BatchOp := { operation := .delete_item, deleteItemRequest := some ⟨2⟩ }

/-- Witness for C10: the builders evaluated at negative indices, and the
bounds fact extracted from the accepted batch `[delete@2]` against a
three-item snapshot. -/
theorem claim10_witness :
    buildDeleteItemRequest ⟨-3⟩ = .deleteItem (-3) ∧
      buildMoveItemRequest ⟨-3, 100⟩ = .moveItem (-3) 100 ∧
      (0 ≤ (⟨2⟩ : DeleteItemRequestParams).index ∧
        (⟨2⟩ : DeleteItemRequestParams).index < (numItems c10Form : Int)) :=
  ⟨claim10_delete_move_builders_total.1 (-3),
   claim10_delete_move_builders_total.2.1 (-3) 100,
   (claim10_delete_move_builders_total.2.2 c10Form [c10Delete] [Request.deleteItem 2]
      rfl c10Delete (List.mem_singleton.mpr rfl)).1 rfl ⟨2⟩ rfl⟩

end GFormsBatch
